import Mathlib

/-!
Verification of the Akeneo PIM CLI core (token lifecycle and API gateway
of src/api.js) against its natural-language specification.

The relevant JavaScript is shallowly embedded: JSON response bodies become
an inductive `Json` type, JS truthiness and string coercion are modelled
explicitly, and each exported operation of the gateway becomes a pure
function from the credential store, the clock, and the outcome of its HTTP
request to a result in `Except AkeneoError`.
-/

namespace Akeneo

/-- A JSON value, as delivered to the client after parsing a response body.
Numbers are modelled as integers (all numbers handled by this client are
epoch millis, lifetimes and counts). -/
inductive Json where
  | null : Json
  | bool : Bool → Json
  | num : Int → Json
  | str : String → Json
  | arr : List Json → Json
  | obj : List (String × Json) → Json

/-- JavaScript truthiness of a JSON value: null, false, 0 and the empty
string are falsy; every array and object (even empty) is truthy. -/
def Json.truthy : Json → Bool
  | .null => false
  | .bool b => b
  | .num n => n != 0
  | .str s => !s.isEmpty
  | .arr _ => true
  | .obj _ => true

/-- Property access `v.k` on a non-null JSON value: a field lookup on an
object, `undefined` (here `none`) on every other shape. Access on `null`
faults in JavaScript and is handled separately at its only occurrence
(`parseAkeneoList`). -/
def Json.getField : Json → String → Option Json
  | .obj fs, k => fs.lookup k
  | _, _ => none

/-- `Array.isArray`. -/
def Json.isArr : Json → Bool
  | .arr _ => true
  | _ => false

/-- Lower 4 bits of a number as a hex digit, for JSON string escapes. -/
def hexDigit (n : Nat) : Char :=
  if n < 10 then Char.ofNat (48 + n) else Char.ofNat (87 + (n - 10))

/-- `JSON.stringify` escaping of a single character inside a string
literal. -/
def jsonEscapeChar (c : Char) : String :=
  if c = '"' then "\\\""
  else if c = '\\' then "\\\\"
  else if c = '\n' then "\\n"
  else if c = '\r' then "\\r"
  else if c = '\t' then "\\t"
  else if c.toNat = 8 then "\\b"
  else if c.toNat = 12 then "\\f"
  else if c.toNat < 32 then
    "\\u00" ++ String.singleton (hexDigit (c.toNat / 16)) ++ String.singleton (hexDigit (c.toNat % 16))
  else String.singleton c

/-- `JSON.stringify` of a string: a quoted, escaped literal. -/
def jsonQuote (s : String) : String :=
  "\"" ++ String.join (s.toList.map jsonEscapeChar) ++ "\""

mutual

/-- `JSON.stringify` of a JSON value. -/
def jsonStringify : Json → String
  | .null => "null"
  | .bool true => "true"
  | .bool false => "false"
  | .num n => toString n
  | .str s => jsonQuote s
  | .arr xs => "[" ++ jsonStringifyList xs ++ "]"
  | .obj fs => "\x7b" ++ jsonStringifyFields fs ++ "\x7d"

/-- Comma-separated serialization of array elements. -/
def jsonStringifyList : List Json → String
  | [] => ""
  | [x] => jsonStringify x
  | x :: y :: rest => jsonStringify x ++ "," ++ jsonStringifyList (y :: rest)

/-- Comma-separated serialization of object fields, in insertion order. -/
def jsonStringifyFields : List (String × Json) → String
  | [] => ""
  | [kv] => jsonQuote kv.1 ++ ":" ++ jsonStringify kv.2
  | kv :: kv2 :: rest => jsonQuote kv.1 ++ ":" ++ jsonStringify kv.2 ++ "," ++ jsonStringifyFields (kv2 :: rest)

end

mutual

/-- JavaScript string coercion `String(v)`, as used by template literals:
strings pass through unquoted, arrays join their elements with commas,
objects print as "[object Object]". -/
def jsTemplateStr : Json → String
  | .null => "null"
  | .bool true => "true"
  | .bool false => "false"
  | .num n => toString n
  | .str s => s
  | .arr xs => jsTemplateStrList xs
  | .obj _ => "[object Object]"

/-- `Array.prototype.toString`: elements joined by commas, with null
rendered as the empty string. -/
def jsTemplateStrList : List Json → String
  | [] => ""
  | [x] => jsTemplateStrElem x
  | x :: y :: rest => jsTemplateStrElem x ++ "," ++ jsTemplateStrList (y :: rest)

/-- A single array element under `Array.prototype.toString`. -/
def jsTemplateStrElem : Json → String
  | .null => ""
  | j => jsTemplateStr j

end

/-- Truthiness of a possibly-absent string configuration value
(`undefined` and the empty string are falsy). -/
def truthyStr : Option String → Bool
  | none => false
  | some s => !s.isEmpty

/-- Truthiness of a possibly-absent numeric configuration value
(`undefined` and 0 are falsy). -/
def truthyInt : Option Int → Bool
  | none => false
  | some n => n != 0

/-- The JS idiom `x || d` on a possibly-absent string: the stored value
when truthy, the fallback otherwise. -/
def jsOrStr (o : Option String) (d : String) : String :=
  match o with
  | some s => if s.isEmpty then d else s
  | none => d

/-- `String.prototype.replace` with a string pattern and empty
replacement: deletes the FIRST occurrence of `pat` (anywhere in the
string, not only as a suffix), leaving the string unchanged when `pat`
does not occur. -/
def jsReplaceFirstAux (pat : List Char) : List Char → List Char
  | [] => []
  | c :: rest =>
    if pat.isPrefixOf (c :: rest) then (c :: rest).drop pat.length
    else c :: jsReplaceFirstAux pat rest

/-- `s.replace(pat, '')` for JavaScript strings. -/
def jsStringReplace (s pat : String) : String :=
  if pat.isEmpty then s else ⟨jsReplaceFirstAux pat.toList s.toList⟩

/-! ## The error taxonomy -/

/-- The errors this client raises. The first seven constructors are the
spec's taxonomy, one per distinct throw message of api.js; `typeError`
models a raw JavaScript TypeError (raised, e.g., by property access on a
null response body), which carries neither an axios response nor an axios
request and is therefore rethrown untranslated by `handleApiError`. -/
inductive AkeneoError where
  | authError : String → AkeneoError
  | permissionError : String → AkeneoError
  | notFoundError : String → AkeneoError
  | validationError : String → AkeneoError
  | rateLimitError : String → AkeneoError
  | connectivityError : String → AkeneoError
  | apiError : String → AkeneoError
  | typeError : AkeneoError
deriving DecidableEq, Repr

/-- Whether an error belongs to the spec's seven-kind taxonomy. -/
def AkeneoError.isTaxonomy : AkeneoError → Bool
  | .typeError => false
  | _ => true

/-! ## The credential store and the token manager (api.js lines 4-45) -/

/-- The persisted configuration key/value pairs read and written by
api.js, one typed field per key; `none` models an unset key. -/
structure Store where
  baseUrl : Option String
  clientId : Option String
  clientSecret : Option String
  username : Option String
  password : Option String
  accessToken : Option String
  tokenExpiry : Option Int
deriving DecidableEq, Repr

/-- `DEFAULT_BASE_URL` from api.js. -/
def DEFAULT_BASE_URL : String := "https://demo.akeneo.com/api/rest/v1"

/-- `getConfig('baseUrl') || DEFAULT_BASE_URL`. -/
def effBaseUrl (store : Store) : String :=
  jsOrStr store.baseUrl DEFAULT_BASE_URL

/-- `baseUrl.replace('/api/rest/v1', '')`: the authority against which the
token endpoint is resolved. -/
def authBaseUrlOf (store : Store) : String :=
  jsStringReplace (effBaseUrl store) "/api/rest/v1"

/-- The cached-token validity test of api.js line 16:
`cachedToken && tokenExpiry && Date.now() < tokenExpiry`. -/
def cacheCheck (store : Store) (now : Int) : Bool :=
  truthyStr store.accessToken && truthyInt store.tokenExpiry
    && decide (now < store.tokenExpiry.getD 0)

/-- The password-grant request issued on a cache miss: its URL and its
JSON body fields. -/
structure TokenRequest where
  url : String
  grant_type : String
  client_id : Option String
  client_secret : Option String
  username : Option String
  password : Option String
deriving DecidableEq, Repr

/-- The token request getAccessToken builds from the store. -/
def tokenReq (store : Store) : TokenRequest :=
  { url := authBaseUrlOf store ++ "/api/oauth/v1/token"
    grant_type := "password"
    client_id := store.clientId
    client_secret := store.clientSecret
    username := store.username
    password := store.password }

/-- The outcome of the password-grant exchange, as axios reports it: a
2xx response carrying `access_token` and `expires_in`, a non-2xx response
carrying an error body, or no response at all. -/
inductive TokenOutcome where
  | success : String → Int → TokenOutcome
  | errorResponse : Json → TokenOutcome
  | noResponse : TokenOutcome

/-- What a call to getAccessToken produces: the returned token or raised
error, the store after the call, and the network request issued
(`none` when the cached token was served). -/
structure TokenResult where
  token : Except AkeneoError String
  store : Store
  request : Option TokenRequest

/-- `data?.message` (optional chaining: `undefined` on null). -/
def optMessage (d : Json) : Option Json :=
  match d with
  | .null => none
  | _ => d.getField "message"

/-- `data?.message || JSON.stringify(data)`, coerced to a string as the
template literals of api.js do. -/
def dataMessage (d : Json) : String :=
  match optMessage d with
  | some m => if m.truthy then jsTemplateStr m else jsonStringify d
  | none => jsonStringify d

/-- `getAccessToken` (api.js lines 6-45): serve the cached token while
`now` is before the stored expiry, otherwise run the password-grant
exchange against the derived auth endpoint; on success persist the token
and `now + expires_in*1000 - 60000`, on failure raise AuthError (error
body received) or ConnectivityError (no response) and leave the store
untouched. -/
def getAccessToken (store : Store) (now : Int) (outcome : TokenOutcome) : TokenResult :=
  if cacheCheck store now then
    { token := .ok (store.accessToken.getD ""), store := store, request := none }
  else
    let req := tokenReq store
    match outcome with
    | .success accessTok expiresIn =>
      { token := .ok accessTok
        store := { store with
                    accessToken := some accessTok
                    tokenExpiry := some (now + expiresIn * 1000 - 60000) }
        request := some req }
    | .errorResponse data =>
      { token := .error (.authError ("Authentication failed: " ++ dataMessage data))
        store := store
        request := some req }
    | .noResponse =>
      { token := .error (.connectivityError
          ("Cannot connect to Akeneo at " ++ authBaseUrlOf store ++ ". Check your base URL."))
        store := store
        request := some req }

/-! ## Error translation (api.js lines 61-78) -/

/-- What the catch blocks of the resource operations receive: an axios
error carrying a response (`error.response`), an axios error carrying
only a request (`error.request`, no response), or any other thrown
error. -/
inductive CaughtError where
  | httpResponse : Nat → Json → CaughtError
  | noResponse : CaughtError
  | other : AkeneoError → CaughtError

/-- `data?.errors || data` from the 422 branch. -/
def errorsOrData (d : Json) : Json :=
  match (match d with | .null => none | _ => d.getField "errors") with
  | some e => if e.truthy then e else d
  | none => d

/-- `handleApiError` (api.js lines 61-78): the single shared translation
from a caught error to the raised error. HTTP statuses map by status
alone (401, 403, 404, 422, 429, generic); a request with no response
maps to ConnectivityError naming the configured base URL; anything else
is rethrown unchanged. -/
def handleApiError (e : CaughtError) (store : Store) : AkeneoError :=
  match e with
  | .httpResponse status data =>
    if status = 401 then
      .authError "Authentication failed. Run: akeneo config set --client-id ... --client-secret ... --username ... --password ..."
    else if status = 403 then
      .permissionError "Access forbidden. Check your Akeneo user permissions."
    else if status = 404 then
      .notFoundError "Resource not found in Akeneo."
    else if status = 422 then
      .validationError ("Validation error: " ++ jsonStringify (errorsOrData data))
    else if status = 429 then
      .rateLimitError "Rate limit exceeded. Please wait before retrying."
    else
      .apiError ("API Error (" ++ toString status ++ "): " ++ dataMessage data)
  | .noResponse =>
    .connectivityError ("No response from Akeneo at " ++ effBaseUrl store ++ ". Check your instance URL.")
  | .other err => err

/-! ## List normalization (api.js lines 80-87) -/

/-- `Array.isArray(data) ? data : []`. -/
def arrOrEmpty (d : Json) : Json :=
  if d.isArr then d else .arr []

/-- `parseAkeneoList` (api.js lines 80-87): return `data._embedded.items`
when both are truthy, else the body itself when it is an array, else an
empty array. Property access on a null body faults (TypeError), modelled
as `.error ()`. -/
def parseAkeneoList (data : Json) : Except Unit Json :=
  match data with
  | .null => .error ()
  | _ =>
    match data.getField "_embedded" with
    | some emb =>
      if emb.truthy then
        match emb.getField "items" with
        | some items => if items.truthy then .ok items else .ok (arrOrEmpty data)
        | none => .ok (arrOrEmpty data)
      else .ok (arrOrEmpty data)
    | none => .ok (arrOrEmpty data)

/-- The truthy `_embedded.items` value of a body, when the envelope
branch of `parseAkeneoList` fires. -/
def envelopeItems (d : Json) : Option Json :=
  match d.getField "_embedded" with
  | some emb =>
    if emb.truthy then
      match emb.getField "items" with
      | some items => if items.truthy then some items else none
      | none => none
    else none
  | none => none

/-! ## The resource operations (api.js lines 93-213)

Each exported operation is `try { client = await getClient(); ...request...;
...use response... } catch (error) { handleApiError(error); }`. The token
phase may itself throw (its errors carry neither response nor request, so
`handleApiError` rethrows them unchanged); on a token success the single
HTTP request either succeeds, fails with a response, or gets no response. -/

/-- The outcome of the one HTTP request an operation issues: a 2xx body,
a non-2xx response (axios rejects it, `error.response` present), or no
response received (`error.request` present). -/
inductive HttpOutcome where
  | success : Json → HttpOutcome
  | httpError : Nat → Json → HttpOutcome
  | noResponse : HttpOutcome

/-- The shared try/catch shape of every operation: obtain a token via
`getAccessToken`, issue the request, hand the 2xx body to the
operation's own success continuation, and route every caught error
through `handleApiError`. -/
def akeneoCall {α : Type} (store : Store) (now : Int) (tokOut : TokenOutcome)
    (http : HttpOutcome) (onSuccess : Store → Json → Except AkeneoError α) :
    Except AkeneoError α :=
  let tr := getAccessToken store now tokOut
  match tr.token with
  | .error e => .error (handleApiError (.other e) tr.store)
  | .ok _ =>
    match http with
    | .success d => onSuccess tr.store d
    | .httpError s d => .error (handleApiError (.httpResponse s d) tr.store)
    | .noResponse => .error (handleApiError .noResponse tr.store)

/-- A list operation's success continuation: `parseAkeneoList(response)`,
whose TypeError on a null body is caught and rethrown untranslated by
`handleApiError`. -/
def listBody (st : Store) (d : Json) : Except AkeneoError Json :=
  match parseAkeneoList d with
  | .ok items => .ok items
  | .error _ => .error (handleApiError (.other .typeError) st)

/-- Query parameters of a list request. -/
structure ReqParams where
  limit : Int
  page : Int
  search : Option String
deriving DecidableEq, Repr

/-- Options of `listProducts`; `none` models an omitted option, replaced
by the destructuring defaults limit=20, page=1. -/
structure ProductListOpts where
  limit : Option Int
  page : Option Int
  search : Option String

/-- Options of `listCategories`. -/
structure CategoryListOpts where
  limit : Option Int
  page : Option Int

/-- Options of `listAttributes`. -/
structure AttrListOpts where
  limit : Option Int
  page : Option Int
  type : Option String

/-- `const params = { limit, page }; if (search) params.search = search;`
of listProducts. -/
def productListParams (o : ProductListOpts) : ReqParams :=
  { limit := o.limit.getD 20
    page := o.page.getD 1
    search := if truthyStr o.search then o.search else none }

/-- `const params = { limit, page };` of listCategories. -/
def categoryListParams (o : CategoryListOpts) : ReqParams :=
  { limit := o.limit.getD 20, page := o.page.getD 1, search := none }

/-- The structured search predicate listAttributes serializes for a type
filter: the object whose JSON form is
`\x7b"type":[\x7b"operator":"=","value":t\x7d]\x7d`. -/
def attrSearchObj (t : String) : Json :=
  .obj [("type", .arr [.obj [("operator", .str "="), ("value", .str t)]])]

/-- `const params = { limit, page }; if (type) params.search =
JSON.stringify(\x7b type: [\x7b operator: '=', value: type \x7d] \x7d);`
of listAttributes. -/
def attrListParams (o : AttrListOpts) : ReqParams :=
  { limit := o.limit.getD 20
    page := o.page.getD 1
    search :=
      if truthyStr o.type then some (jsonStringify (attrSearchObj (o.type.getD "")))
      else none }

/-- `listProducts` (api.js lines 93-103): GET /products with the built
params, normalized through parseAkeneoList. Returns the issued params
alongside the result. -/
def listProducts (store : Store) (now : Int) (tokOut : TokenOutcome)
    (opts : ProductListOpts) (http : HttpOutcome) : ReqParams × Except AkeneoError Json :=
  (productListParams opts, akeneoCall store now tokOut http listBody)

/-- `getProduct` (api.js lines 105-113): GET /products/code, returning
the response body as-is. -/
def getProduct (store : Store) (now : Int) (tokOut : TokenOutcome)
    (_code : String) (http : HttpOutcome) : Except AkeneoError Json :=
  akeneoCall store now tokOut http (fun _ d => .ok d)

/-- `listCategories` (api.js lines 135-145). -/
def listCategories (store : Store) (now : Int) (tokOut : TokenOutcome)
    (opts : CategoryListOpts) (http : HttpOutcome) : ReqParams × Except AkeneoError Json :=
  (categoryListParams opts, akeneoCall store now tokOut http listBody)

/-- `getCategory` (api.js lines 146-155). -/
def getCategory (store : Store) (now : Int) (tokOut : TokenOutcome)
    (_code : String) (http : HttpOutcome) : Except AkeneoError Json :=
  akeneoCall store now tokOut http (fun _ d => .ok d)

/-- `listAttributes` (api.js lines 175-185): GET /attributes with the
built params (search set to the serialized predicate when a type filter
is supplied). -/
def listAttributes (store : Store) (now : Int) (tokOut : TokenOutcome)
    (opts : AttrListOpts) (http : HttpOutcome) : ReqParams × Except AkeneoError Json :=
  (attrListParams opts, akeneoCall store now tokOut http listBody)

/-- `getAttribute` (api.js lines 187-195). -/
def getAttribute (store : Store) (now : Int) (tokOut : TokenOutcome)
    (_code : String) (http : HttpOutcome) : Except AkeneoError Json :=
  akeneoCall store now tokOut http (fun _ d => .ok d)

/-- Arguments of `createProduct`; `none` models an omitted field. -/
structure ProductArgs where
  identifier : Option String
  family : Option String
  categories : Option Json
  values : Option Json

/-- Arguments of `createCategory`. -/
structure CategoryArgs where
  code : Option String
  parent : Option String
  labels : Option Json

/-- Arguments of `createAttribute`; scopable and localizable default to
false at the parameter list. -/
structure AttrArgs where
  code : Option String
  type : Option String
  group : Option String
  labels : Option Json
  scopable : Bool
  localizable : Bool

/-- The value `createProduct` returns on success:
`\x7b identifier, family, categories \x7d` — the caller's own bindings. -/
structure ProductEcho where
  identifier : Option String
  family : Option String
  categories : Option Json

/-- The value `createCategory` returns on success:
`\x7b code, parent, labels \x7d`. -/
structure CategoryEcho where
  code : Option String
  parent : Option String
  labels : Option Json

/-- The value `createAttribute` returns on success:
`\x7b code, type, group: group || 'other' \x7d`. -/
structure AttrEcho where
  code : Option String
  type : Option String
  group : Option String

/-- `createProduct` (api.js lines 115-129): POST /products, then return
the identifier/family/categories the caller passed in — the response
body is not consulted. -/
def createProduct (store : Store) (now : Int) (tokOut : TokenOutcome)
    (a : ProductArgs) (http : HttpOutcome) : Except AkeneoError ProductEcho :=
  akeneoCall store now tokOut http
    (fun _ _ => .ok { identifier := a.identifier, family := a.family, categories := a.categories })

/-- `createCategory` (api.js lines 156-169): POST /categories, then
return the code/parent/labels the caller passed in. -/
def createCategory (store : Store) (now : Int) (tokOut : TokenOutcome)
    (a : CategoryArgs) (http : HttpOutcome) : Except AkeneoError CategoryEcho :=
  akeneoCall store now tokOut http
    (fun _ _ => .ok { code := a.code, parent := a.parent, labels := a.labels })

/-- `createAttribute` (api.js lines 197-213): POST /attributes, then
return the code/type the caller passed in together with
`group || 'other'`. -/
def createAttribute (store : Store) (now : Int) (tokOut : TokenOutcome)
    (a : AttrArgs) (http : HttpOutcome) : Except AkeneoError AttrEcho :=
  akeneoCall store now tokOut http
    (fun _ _ => .ok { code := a.code, type := a.type, group := some (jsOrStr a.group "other") })

/-! ## Spec-side comparison definitions and concrete sample inputs -/

/-- Following the spec's words, for comparison with the source: the
authentication endpoint obtained by stripping the API-path suffix
`/api/rest/v1` from the base URL (only when it actually is a suffix) and
appending `/api/oauth/v1/token`. -/
def authEndpointSpec (base : String) : String :=
  (if ("/api/rest/v1".toList).isSuffixOf base.toList
     then (⟨base.toList.take (base.toList.length - 12)⟩ : String)
     else base)
    ++ "/api/oauth/v1/token"

/-- Following the claim's words, for comparison with the source: a
create call returns only the identifying fields the caller submitted —
for attributes, the caller's own code, type and group. -/
def attrEchoClaim (a : AttrArgs) : AttrEcho :=
  { code := a.code, type := a.type, group := a.group }

/-- Whether `data?.message` is truthy (the guard deciding between the
message field and the serialized body). -/
def msgTruthy (d : Json) : Bool :=
  match optMessage d with
  | some m => m.truthy
  | none => false

/-- Whether a gateway result is an error of one of the spec's seven
kinds. -/
def resultTaxonomy {α : Type} : Except AkeneoError α → Bool
  | .error e => e.isTaxonomy
  | .ok _ => false

/-- A configured store holding a cached token valid until epoch
millisecond 1000000. -/
def demoStoreCached : Store :=
  { baseUrl := some "https://pim.example.com/api/rest/v1"
    clientId := some "id"
    clientSecret := some "secret"
    username := some "user"
    password := some "pw"
    accessToken := some "cached-token"
    tokenExpiry := some 1000000 }

/-- A configured store with no cached token. -/
def demoStoreFresh : Store :=
  { baseUrl := some "https://pim.example.com/api/rest/v1"
    clientId := some "id"
    clientSecret := some "secret"
    username := some "user"
    password := some "pw"
    accessToken := none
    tokenExpiry := none }

/-- A store whose base URL contains `/api/rest/v1` other than as a
suffix, separating first-occurrence replacement from suffix
stripping. -/
def storeC8 : Store :=
  { demoStoreFresh with baseUrl := some "https://h/api/rest/v1/extra" }

/-- Attribute-creation arguments with no group supplied. -/
def attrArgsNoGroup : AttrArgs :=
  { code := some "color"
    type := some "pim_catalog_text"
    group := none
    labels := none
    scopable := false
    localizable := false }

/-! ## Helper lemmas -/

/-- A nonempty string is truthy. -/
theorem isEmpty_false_of_ne (t : String) (h : t ≠ "") : t.isEmpty = false := by
  rw [Bool.eq_false_iff]
  simp [String.isEmpty_iff, h]

/-- On a non-null body, `parseAkeneoList` returns the truthy embedded
items when the envelope branch fires and otherwise falls back to the
bare-array test. -/
theorem parseAkeneoList_eq (d : Json) (hne : d ≠ Json.null) :
    parseAkeneoList d =
      .ok (match envelopeItems d with | some it => it | none => arrOrEmpty d) := by
  cases d with
  | null => exact absurd rfl hne
  | bool b => rfl
  | num n => rfl
  | str s => rfl
  | arr xs => rfl
  | obj fs =>
    show (match (Json.obj fs).getField "_embedded" with
      | some emb =>
        if emb.truthy then
          match emb.getField "items" with
          | some items => if items.truthy then Except.ok items else .ok (arrOrEmpty (Json.obj fs))
          | none => .ok (arrOrEmpty (Json.obj fs))
        else .ok (arrOrEmpty (Json.obj fs))
      | none => .ok (arrOrEmpty (Json.obj fs))) = _
    unfold envelopeItems
    cases hemb : (Json.obj fs).getField "_embedded" with
    | none => simp [hemb]
    | some emb =>
      simp only [hemb]
      by_cases htr : emb.truthy
      · cases hit : emb.getField "items" with
        | none => simp [htr, hit]
        | some it => by_cases h2 : it.truthy <;> simp [htr, hit, h2]
      · simp [htr]

/-- Every error the cache-miss paths of `getAccessToken` raise belongs
to the taxonomy. -/
theorem getAccessToken_error_taxonomy (store : Store) (now : Int) (out : TokenOutcome)
    (e : AkeneoError) (h : (getAccessToken store now out).token = .error e) :
    e.isTaxonomy = true := by
  unfold getAccessToken at h
  by_cases hc : cacheCheck store now
  · simp [hc] at h
  · cases out with
    | success tok life => simp [hc] at h
    | errorResponse d =>
      simp [hc] at h
      rw [← h]
      rfl
    | noResponse =>
      simp [hc] at h
      rw [← h]
      rfl

/-- The HTTP-response branch of `handleApiError` always produces a
taxonomy kind. -/
theorem handleApiError_http_taxonomy (s : Nat) (d : Json) (st : Store) :
    (handleApiError (.httpResponse s d) st).isTaxonomy = true := by
  simp only [handleApiError]
  split_ifs <;> rfl

/-- The no-response branch of `handleApiError` produces a taxonomy
kind. -/
theorem handleApiError_noresp_taxonomy (st : Store) :
    (handleApiError .noResponse st).isTaxonomy = true := rfl

/-- Any operation whose HTTP request does not succeed fails with a
taxonomy-kind error. -/
theorem akeneoCall_taxonomy {α : Type} (store : Store) (now : Int) (tokOut : TokenOutcome)
    (http : HttpOutcome) (f : Store → Json → Except AkeneoError α)
    (hh : ∀ d, http ≠ .success d) :
    resultTaxonomy (akeneoCall store now tokOut http f) = true := by
  unfold akeneoCall
  cases htk : (getAccessToken store now tokOut).token with
  | error e =>
    simp only [htk]
    simpa [resultTaxonomy, handleApiError] using
      getAccessToken_error_taxonomy store now tokOut e htk
  | ok t =>
    simp only [htk]
    cases http with
    | success d => exact absurd rfl (hh d)
    | httpError s d =>
      simpa [resultTaxonomy] using handleApiError_http_taxonomy s d (getAccessToken store now tokOut).store
    | noResponse =>
      simpa [resultTaxonomy] using handleApiError_noresp_taxonomy (getAccessToken store now tokOut).store

/-- Claim C2: when a cached access token exists (is truthy, as the
source's own check reads it) and the current time is strictly before the
stored expiry, `getAccessToken` returns the cached token unchanged,
issues no network request, and writes nothing to the store. -/
theorem c2_cached_token_served (store : Store) (now : Int) (t : String) (e : Int)
    (h1 : store.accessToken = some t) (h2 : t ≠ "")
    (h3 : store.tokenExpiry = some e) (h4 : 0 ≤ now) (h5 : now < e)
    (out : TokenOutcome) :
    (getAccessToken store now out).token = .ok t ∧
    (getAccessToken store now out).store = store ∧
    (getAccessToken store now out).request = none := by
  have hc : cacheCheck store now = true := by
    simp [cacheCheck, h1, h3, truthyStr, truthyInt, isEmpty_false_of_ne t h2, h5]
    omega
  refine ⟨?_, ?_, ?_⟩ <;> simp [getAccessToken, hc, h1]

/-- Witness for C2 at a concrete store and clock. -/
theorem c2_cached_token_served_witness :
    (getAccessToken demoStoreCached 500000 .noResponse).token = .ok "cached-token" ∧
    (getAccessToken demoStoreCached 500000 .noResponse).store = demoStoreCached ∧
    (getAccessToken demoStoreCached 500000 .noResponse).request = none :=
  c2_cached_token_served demoStoreCached 500000 "cached-token" 1000000 rfl
    (by decide) rfl (by decide) (by decide) .noResponse

/-- Claim C4: a successful exchange at time `now` returning an access
token with declared lifetime `life` persists the token, persists the
expiry `now + life * 1000 - 60000`, and returns the token. -/
theorem c4_token_persisted (store : Store) (now : Int) (tok : String) (life : Int)
    (h : cacheCheck store now = false) :
    (getAccessToken store now (.success tok life)).token = .ok tok ∧
    (getAccessToken store now (.success tok life)).store.accessToken = some tok ∧
    (getAccessToken store now (.success tok life)).store.tokenExpiry =
      some (now + life * 1000 - 60000) := by
  refine ⟨?_, ?_, ?_⟩ <;> simp [getAccessToken, h]

/-- Witness for C4: the spec's own scenario, lifetime 3600 at time T. -/
theorem c4_token_persisted_witness :
    (getAccessToken demoStoreFresh 1000 (.success "abc" 3600)).token = .ok "abc" ∧
    (getAccessToken demoStoreFresh 1000 (.success "abc" 3600)).store.accessToken = some "abc" ∧
    (getAccessToken demoStoreFresh 1000 (.success "abc" 3600)).store.tokenExpiry =
      some (1000 + 3600 * 1000 - 60000) :=
  c4_token_persisted demoStoreFresh 1000 "abc" 3600 rfl

/-- Claim C10: a failed exchange (error body received, or no response at
all) raises and leaves the store exactly as it was — no write occurs. -/
theorem c10_failed_exchange_no_write (store : Store) (now : Int) (d : Json)
    (h : cacheCheck store now = false) :
    (getAccessToken store now (.errorResponse d)).store = store ∧
    (getAccessToken store now .noResponse).store = store ∧
    (∃ m, (getAccessToken store now (.errorResponse d)).token = .error (.authError m)) ∧
    (∃ m, (getAccessToken store now .noResponse).token = .error (.connectivityError m)) := by
  refine ⟨?_, ?_, ?_, ?_⟩ <;> simp [getAccessToken, h]

/-- Witness for C10 at a concrete store and error body. -/
theorem c10_failed_exchange_no_write_witness :
    (getAccessToken demoStoreFresh 0 (.errorResponse (Json.obj [("message", Json.str "bad")]))).store = demoStoreFresh ∧
    (getAccessToken demoStoreFresh 0 .noResponse).store = demoStoreFresh ∧
    (∃ m, (getAccessToken demoStoreFresh 0 (.errorResponse (Json.obj [("message", Json.str "bad")]))).token = .error (.authError m)) ∧
    (∃ m, (getAccessToken demoStoreFresh 0 .noResponse).token = .error (.connectivityError m)) :=
  c10_failed_exchange_no_write demoStoreFresh 0 (Json.obj [("message", Json.str "bad")]) rfl

/-- Claim C6: when the exchange fails with an error body, the raised
error is an AuthError whose message carries the body's message field
when that field is (present and) truthy and the body serialized to JSON
otherwise; when no response was received, the raised error is a distinct
ConnectivityError naming the authority at which the authentication
endpoint lives (the endpoint URL is that authority plus the fixed token
path). -/
theorem c6_token_failure_errors (store : Store) (now : Int)
    (h : cacheCheck store now = false) :
    (∀ d m, optMessage d = some m → m.truthy = true →
      (getAccessToken store now (.errorResponse d)).token =
        .error (.authError ("Authentication failed: " ++ jsTemplateStr m))) ∧
    (∀ d, msgTruthy d = false →
      (getAccessToken store now (.errorResponse d)).token =
        .error (.authError ("Authentication failed: " ++ jsonStringify d))) ∧
    ((getAccessToken store now .noResponse).token =
      .error (.connectivityError
        ("Cannot connect to Akeneo at " ++ authBaseUrlOf store ++ ". Check your base URL."))) ∧
    (tokenReq store).url = authBaseUrlOf store ++ "/api/oauth/v1/token" := by
  refine ⟨?_, ?_, ?_, rfl⟩
  · intro d m hm ht
    simp [getAccessToken, h, dataMessage, hm, ht]
  · intro d hb
    cases hopt : optMessage d with
    | none => simp [getAccessToken, h, dataMessage, hopt]
    | some m =>
      have hmf : m.truthy = false := by simpa [msgTruthy, hopt] using hb
      simp [getAccessToken, h, dataMessage, hopt, hmf]
  · simp [getAccessToken, h]

/-- Witness for C6: a concrete error body with a message field. -/
theorem c6_token_failure_errors_witness :
    (getAccessToken demoStoreFresh 0
        (.errorResponse (Json.obj [("message", Json.str "Invalid credentials")]))).token =
      .error (.authError "Authentication failed: Invalid credentials") := by
  have hx := (c6_token_failure_errors demoStoreFresh 0 rfl).1
    (Json.obj [("message", Json.str "Invalid credentials")])
    (Json.str "Invalid credentials") rfl rfl
  have hs : "Authentication failed: " ++ jsTemplateStr (Json.str "Invalid credentials") =
      "Authentication failed: Invalid credentials" := by simp [jsTemplateStr]
  rw [hx, hs]

/-- Counterexample for C8: `replace` deletes the first occurrence of
`/api/rest/v1` anywhere in the base URL, which differs from stripping it
as a suffix when the substring first occurs mid-string. -/
theorem c8_auth_url_cex :
    ((getAccessToken storeC8 0 .noResponse).request.map TokenRequest.url =
      some "https://h/extra/api/oauth/v1/token") ∧
    authEndpointSpec "https://h/api/rest/v1/extra" =
      "https://h/api/rest/v1/extra/api/oauth/v1/token" ∧
    ("https://h/extra/api/oauth/v1/token" : String) ≠
      "https://h/api/rest/v1/extra/api/oauth/v1/token" := by
  refine ⟨rfl, rfl, by decide⟩

/-- Claim C8 as amended: the token exchange goes to the URL obtained by
deleting the FIRST occurrence of `/api/rest/v1` anywhere in the base URL
(coinciding with suffix stripping for base URLs that end in the suffix
and contain it nowhere earlier) and appending `/api/oauth/v1/token`,
with a body carrying grant_type "password" and the stored client id,
client secret, username and password. -/
theorem c8_auth_url_amended (store : Store) (now : Int) (out : TokenOutcome)
    (h : cacheCheck store now = false) :
    (getAccessToken store now out).request = some
      { url := jsStringReplace (effBaseUrl store) "/api/rest/v1" ++ "/api/oauth/v1/token"
        grant_type := "password"
        client_id := store.clientId
        client_secret := store.clientSecret
        username := store.username
        password := store.password } := by
  cases out <;> simp [getAccessToken, h, tokenReq, authBaseUrlOf]

/-- Witness for C8's amended claim at a concrete store. -/
theorem c8_auth_url_amended_witness :
    (getAccessToken demoStoreFresh 0 .noResponse).request = some
      { url := "https://pim.example.com/api/oauth/v1/token"
        grant_type := "password"
        client_id := some "id"
        client_secret := some "secret"
        username := some "user"
        password := some "pw" } :=
  c8_auth_url_amended demoStoreFresh 0 .noResponse rfl

/-- Counterexample for C3: a body whose `_embedded.items` is truthy but
not a sequence is returned as-is, where the claim demands that any shape
other than an items envelope or a bare sequence normalize to an empty
sequence. -/
theorem c3_normalize_cex :
    parseAkeneoList (Json.obj [("_embedded", Json.obj [("items", Json.str "x")])]) =
      .ok (Json.str "x") ∧
    Json.str "x" ≠ Json.arr [] :=
  ⟨rfl, fun hx => Json.noConfusion hx⟩

/-- Claim C3 as amended: an envelope whose `_embedded.items` is truthy
returns exactly that items value (hence an items sequence is returned
exactly, preserving order); a bare sequence is returned unchanged; every
other non-null body normalizes to the empty sequence; and a null body
faults (property access on null) instead of normalizing. -/
theorem c3_normalize_amended :
    (∀ d items, envelopeItems d = some items → parseAkeneoList d = .ok items) ∧
    (∀ xs, parseAkeneoList (Json.arr xs) = .ok (Json.arr xs)) ∧
    (∀ d, d ≠ Json.null → envelopeItems d = none → d.isArr = false →
      parseAkeneoList d = .ok (Json.arr [])) ∧
    parseAkeneoList Json.null = .error () := by
  refine ⟨?_, fun xs => rfl, ?_, rfl⟩
  · intro d items henv
    have hne : d ≠ Json.null := by
      rintro rfl
      simp [envelopeItems, Json.getField] at henv
    rw [parseAkeneoList_eq d hne, henv]
  · intro d hne henv harr
    rw [parseAkeneoList_eq d hne, henv]
    simp [arrOrEmpty, harr]

/-- Witness for C3's amended claim: a two-element envelope normalizes to
its inner sequence in order. -/
theorem c3_normalize_amended_witness :
    parseAkeneoList (Json.obj [("_embedded",
        Json.obj [("items", Json.arr [Json.str "a", Json.str "b"])])]) =
      .ok (Json.arr [Json.str "a", Json.str "b"]) :=
  c3_normalize_amended.1
    (Json.obj [("_embedded", Json.obj [("items", Json.arr [Json.str "a", Json.str "b"])])])
    (Json.arr [Json.str "a", Json.str "b"]) rfl

/-- Claim C5: with a non-empty type filter `t`, `listAttributes` sets
the outgoing search parameter to exactly the JSON serialization of the
structured equality predicate on the type field; with no filter, no
search parameter is sent. -/
theorem c5_attr_type_search (store : Store) (now : Int) (tokOut : TokenOutcome)
    (http : HttpOutcome) (l p : Option Int) (t : String) (h : t ≠ "") :
    (listAttributes store now tokOut { limit := l, page := p, type := some t } http).1.search =
      some ("\x7b\"type\":[\x7b\"operator\":\"=\",\"value\":" ++ jsonQuote t ++ "\x7d]\x7d") ∧
    (listAttributes store now tokOut { limit := l, page := p, type := none } http).1.search =
      none := by
  constructor
  · have e1 : jsonQuote "type" = "\"type\"" := by decide
    have e2 : jsonQuote "operator" = "\"operator\"" := by decide
    have e3 : jsonQuote "=" = "\"=\"" := by decide
    have e4 : jsonQuote "value" = "\"value\"" := by decide
    simp [listAttributes, attrListParams, truthyStr, isEmpty_false_of_ne t h, attrSearchObj,
      jsonStringify, jsonStringifyFields, jsonStringifyList, e1, e2, e3, e4,
      ← String.append_assoc]
    simp [String.append_assoc]
  · simp [listAttributes, attrListParams, truthyStr]

/-- Witness for C5: the spec's own scenario, filter pim_catalog_text. -/
theorem c5_attr_type_search_witness :
    (listAttributes demoStoreCached 0 .noResponse
        { limit := none, page := none, type := some "pim_catalog_text" } .noResponse).1.search =
      some "\x7b\"type\":[\x7b\"operator\":\"=\",\"value\":\"pim_catalog_text\"\x7d]\x7d" := by
  have hx := (c5_attr_type_search demoStoreCached 0 .noResponse .noResponse
    none none "pim_catalog_text" (by decide)).1
  have hq : jsonQuote "pim_catalog_text" = "\"pim_catalog_text\"" := by decide
  rw [hx, hq]
  simp

/-- Claim C1: every resource operation routes an HTTP error response
through the one shared `handleApiError`, so the raised error is
determined by the status alone — 401 AuthError, 403 PermissionError,
404 NotFoundError, 422 ValidationError, 429 RateLimitError, and any
other status a generic ApiError whose message carries the status code
and the remote message or serialized body. Each operation consumes the
outcome of its single HTTP request exactly once, so the error is raised
once with no retry. -/
theorem c1_uniform_error_mapping (store : Store) (now : Int) (tokOut : TokenOutcome)
    (tk : String) (hT : (getAccessToken store now tokOut).token = .ok tk)
    (s : Nat) (d : Json) :
    (∀ o, (listProducts store now tokOut o (.httpError s d)).2 =
      .error (handleApiError (.httpResponse s d) (getAccessToken store now tokOut).store)) ∧
    (∀ c, getProduct store now tokOut c (.httpError s d) =
      .error (handleApiError (.httpResponse s d) (getAccessToken store now tokOut).store)) ∧
    (∀ a, createProduct store now tokOut a (.httpError s d) =
      .error (handleApiError (.httpResponse s d) (getAccessToken store now tokOut).store)) ∧
    (∀ o, (listCategories store now tokOut o (.httpError s d)).2 =
      .error (handleApiError (.httpResponse s d) (getAccessToken store now tokOut).store)) ∧
    (∀ c, getCategory store now tokOut c (.httpError s d) =
      .error (handleApiError (.httpResponse s d) (getAccessToken store now tokOut).store)) ∧
    (∀ a, createCategory store now tokOut a (.httpError s d) =
      .error (handleApiError (.httpResponse s d) (getAccessToken store now tokOut).store)) ∧
    (∀ o, (listAttributes store now tokOut o (.httpError s d)).2 =
      .error (handleApiError (.httpResponse s d) (getAccessToken store now tokOut).store)) ∧
    (∀ c, getAttribute store now tokOut c (.httpError s d) =
      .error (handleApiError (.httpResponse s d) (getAccessToken store now tokOut).store)) ∧
    (∀ a, createAttribute store now tokOut a (.httpError s d) =
      .error (handleApiError (.httpResponse s d) (getAccessToken store now tokOut).store)) ∧
    (s = 401 → handleApiError (.httpResponse s d) (getAccessToken store now tokOut).store =
      .authError "Authentication failed. Run: akeneo config set --client-id ... --client-secret ... --username ... --password ...") ∧
    (s = 403 → handleApiError (.httpResponse s d) (getAccessToken store now tokOut).store =
      .permissionError "Access forbidden. Check your Akeneo user permissions.") ∧
    (s = 404 → handleApiError (.httpResponse s d) (getAccessToken store now tokOut).store =
      .notFoundError "Resource not found in Akeneo.") ∧
    (s = 422 → handleApiError (.httpResponse s d) (getAccessToken store now tokOut).store =
      .validationError ("Validation error: " ++ jsonStringify (errorsOrData d))) ∧
    (s = 429 → handleApiError (.httpResponse s d) (getAccessToken store now tokOut).store =
      .rateLimitError "Rate limit exceeded. Please wait before retrying.") ∧
    (s ≠ 401 → s ≠ 403 → s ≠ 404 → s ≠ 422 → s ≠ 429 →
      handleApiError (.httpResponse s d) (getAccessToken store now tokOut).store =
      .apiError ("API Error (" ++ toString s ++ "): " ++ dataMessage d)) := by
  have hcall : ∀ {α : Type} (f : Store → Json → Except AkeneoError α),
      akeneoCall store now tokOut (.httpError s d) f =
        .error (handleApiError (.httpResponse s d) (getAccessToken store now tokOut).store) := by
    intro α f
    simp [akeneoCall, hT]
  refine ⟨fun o => hcall listBody,
          fun c => hcall (fun _ d => Except.ok d),
          fun a => hcall (fun _ _ => Except.ok
            { identifier := a.identifier, family := a.family, categories := a.categories }),
          fun o => hcall listBody,
          fun c => hcall (fun _ d => Except.ok d),
          fun a => hcall (fun _ _ => Except.ok
            { code := a.code, parent := a.parent, labels := a.labels }),
          fun o => hcall listBody,
          fun c => hcall (fun _ d => Except.ok d),
          fun a => hcall (fun _ _ => Except.ok
            { code := a.code, type := a.type, group := some (jsOrStr a.group "other") }),
          ?_, ?_, ?_, ?_, ?_, ?_⟩
  · rintro rfl; rfl
  · rintro rfl; rfl
  · rintro rfl; rfl
  · rintro rfl; rfl
  · rintro rfl; rfl
  · intro h1 h2 h3 h4 h5
    simp [handleApiError, h1, h2, h3, h4, h5]

/-- Witness for C1: the spec's own scenario, a 404 on getProduct. -/
theorem c1_uniform_error_mapping_witness :
    getProduct demoStoreCached 0 .noResponse "missing-sku" (.httpError 404 Json.null) =
      .error (.notFoundError "Resource not found in Akeneo.") := by
  obtain ⟨_, hget, _, _, _, _, _, _, _, _, _, h404, _, _, _⟩ :=
    c1_uniform_error_mapping demoStoreCached 0 .noResponse "cached-token" rfl 404 Json.null
  rw [hget "missing-sku", h404 rfl]

/-- Counterexample for C9: when the caller omits the group,
`createAttribute` returns group "other" — a value the caller never
submitted — so the result is not an echo of the submitted identifying
fields. -/
theorem c9_create_echo_cex :
    createAttribute demoStoreCached 0 .noResponse attrArgsNoGroup (.success Json.null) =
      .ok { code := some "color", type := some "pim_catalog_text", group := some "other" } ∧
    attrArgsNoGroup.group = none ∧
    ({ code := some "color", type := some "pim_catalog_text", group := some "other" } : AttrEcho) ≠
      attrEchoClaim attrArgsNoGroup := by
  refine ⟨rfl, rfl, ?_⟩
  intro hx
  simp [attrEchoClaim, attrArgsNoGroup, AttrEcho.mk.injEq] at hx

/-- Claim C9 as amended: every successful create returns only a minimal
echo of the identifying fields as submitted to the server —
identifier/family/categories for products, code/parent/labels for
categories, and code/type/group for attributes with group defaulting to
"other" when the caller omits it — independent of the response body, so
no re-fetch of the created resource occurs. -/
theorem c9_create_echo_amended (store : Store) (now : Int) (tokOut : TokenOutcome)
    (tk : String) (hT : (getAccessToken store now tokOut).token = .ok tk) :
    (∀ a d, createProduct store now tokOut a (.success d) =
      .ok { identifier := a.identifier, family := a.family, categories := a.categories }) ∧
    (∀ a d, createCategory store now tokOut a (.success d) =
      .ok { code := a.code, parent := a.parent, labels := a.labels }) ∧
    (∀ a d, createAttribute store now tokOut a (.success d) =
      .ok { code := a.code, type := a.type, group := some (jsOrStr a.group "other") }) := by
  refine ⟨fun a d => ?_, fun a d => ?_, fun a d => ?_⟩ <;>
    simp [createProduct, createCategory, createAttribute, akeneoCall, hT]

/-- Witness for C9's amended claim at concrete arguments. -/
theorem c9_create_echo_amended_witness :
    createProduct demoStoreCached 0 .noResponse
        { identifier := some "sku-1", family := some "clothing", categories := none, values := none }
        (.success (Json.str "ignored")) =
      .ok { identifier := some "sku-1", family := some "clothing", categories := none } :=
  (c9_create_echo_amended demoStoreCached 0 .noResponse "cached-token" rfl).1
    { identifier := some "sku-1", family := some "clothing", categories := none, values := none }
    (Json.str "ignored")

/-- Counterexample for C7: a 2xx list response whose body is null makes
`parseAkeneoList` raise a TypeError, which carries neither a response
nor a request, so `handleApiError` rethrows it untranslated — a failure
escaping outside the seven-kind taxonomy. -/
theorem c7_taxonomy_cex :
    (listProducts demoStoreCached 0 .noResponse
        { limit := none, page := none, search := none } (.success Json.null)).2 =
      .error AkeneoError.typeError ∧
    AkeneoError.typeError.isTaxonomy = false :=
  ⟨rfl, rfl⟩

/-- Claim C7 as amended: every token-manager failure and every
HTTP-level failure of every operation (error response received, or no
response at all) is translated into one of the seven taxonomy kinds;
only an error carrying neither a response nor a request — such as the
TypeError raised while processing a successful response with a null
body — is rethrown unmodified and escapes untranslated. -/
theorem c7_taxonomy_amended (store : Store) (now : Int) (tokOut : TokenOutcome)
    (s : Nat) (d : Json) :
    (∀ e, (getAccessToken store now tokOut).token = .error e → e.isTaxonomy = true) ∧
    (∀ o, resultTaxonomy (listProducts store now tokOut o (.httpError s d)).2 = true) ∧
    (∀ o, resultTaxonomy (listProducts store now tokOut o .noResponse).2 = true) ∧
    (∀ c, resultTaxonomy (getProduct store now tokOut c (.httpError s d)) = true) ∧
    (∀ c, resultTaxonomy (getProduct store now tokOut c .noResponse) = true) ∧
    (∀ a, resultTaxonomy (createProduct store now tokOut a (.httpError s d)) = true) ∧
    (∀ a, resultTaxonomy (createProduct store now tokOut a .noResponse) = true) ∧
    (∀ o, resultTaxonomy (listCategories store now tokOut o (.httpError s d)).2 = true) ∧
    (∀ o, resultTaxonomy (listCategories store now tokOut o .noResponse).2 = true) ∧
    (∀ c, resultTaxonomy (getCategory store now tokOut c (.httpError s d)) = true) ∧
    (∀ c, resultTaxonomy (getCategory store now tokOut c .noResponse) = true) ∧
    (∀ a, resultTaxonomy (createCategory store now tokOut a (.httpError s d)) = true) ∧
    (∀ a, resultTaxonomy (createCategory store now tokOut a .noResponse) = true) ∧
    (∀ o, resultTaxonomy (listAttributes store now tokOut o (.httpError s d)).2 = true) ∧
    (∀ o, resultTaxonomy (listAttributes store now tokOut o .noResponse).2 = true) ∧
    (∀ c, resultTaxonomy (getAttribute store now tokOut c (.httpError s d)) = true) ∧
    (∀ c, resultTaxonomy (getAttribute store now tokOut c .noResponse) = true) ∧
    (∀ a, resultTaxonomy (createAttribute store now tokOut a (.httpError s d)) = true) ∧
    (∀ a, resultTaxonomy (createAttribute store now tokOut a .noResponse) = true) := by
  have hhttp : ∀ d', HttpOutcome.httpError s d ≠ HttpOutcome.success d' := fun _ hx => nomatch hx
  have hnr : ∀ d', HttpOutcome.noResponse ≠ HttpOutcome.success d' := fun _ hx => nomatch hx
  exact ⟨fun e hx => getAccessToken_error_taxonomy store now tokOut e hx,
    fun o => akeneoCall_taxonomy store now tokOut _ listBody hhttp,
    fun o => akeneoCall_taxonomy store now tokOut _ listBody hnr,
    fun c => akeneoCall_taxonomy store now tokOut _ (fun _ d' => Except.ok d') hhttp,
    fun c => akeneoCall_taxonomy store now tokOut _ (fun _ d' => Except.ok d') hnr,
    fun a => akeneoCall_taxonomy store now tokOut _ (fun _ _ => Except.ok
      { identifier := a.identifier, family := a.family, categories := a.categories }) hhttp,
    fun a => akeneoCall_taxonomy store now tokOut _ (fun _ _ => Except.ok
      { identifier := a.identifier, family := a.family, categories := a.categories }) hnr,
    fun o => akeneoCall_taxonomy store now tokOut _ listBody hhttp,
    fun o => akeneoCall_taxonomy store now tokOut _ listBody hnr,
    fun c => akeneoCall_taxonomy store now tokOut _ (fun _ d' => Except.ok d') hhttp,
    fun c => akeneoCall_taxonomy store now tokOut _ (fun _ d' => Except.ok d') hnr,
    fun a => akeneoCall_taxonomy store now tokOut _ (fun _ _ => Except.ok
      { code := a.code, parent := a.parent, labels := a.labels }) hhttp,
    fun a => akeneoCall_taxonomy store now tokOut _ (fun _ _ => Except.ok
      { code := a.code, parent := a.parent, labels := a.labels }) hnr,
    fun o => akeneoCall_taxonomy store now tokOut _ listBody hhttp,
    fun o => akeneoCall_taxonomy store now tokOut _ listBody hnr,
    fun c => akeneoCall_taxonomy store now tokOut _ (fun _ d' => Except.ok d') hhttp,
    fun c => akeneoCall_taxonomy store now tokOut _ (fun _ d' => Except.ok d') hnr,
    fun a => akeneoCall_taxonomy store now tokOut _ (fun _ _ => Except.ok
      { code := a.code, type := a.type, group := some (jsOrStr a.group "other") }) hhttp,
    fun a => akeneoCall_taxonomy store now tokOut _ (fun _ _ => Except.ok
      { code := a.code, type := a.type, group := some (jsOrStr a.group "other") }) hnr⟩

/-- Witness for C7's amended claim: a connectivity failure of the token
exchange is a taxonomy kind. -/
theorem c7_taxonomy_amended_witness :
    AkeneoError.isTaxonomy
      (.connectivityError "Cannot connect to Akeneo at https://pim.example.com. Check your base URL.") = true :=
  (c7_taxonomy_amended demoStoreFresh 0 .noResponse 0 Json.null).1
    (.connectivityError "Cannot connect to Akeneo at https://pim.example.com. Check your base URL.") rfl

end Akeneo
